import Mathlib

/-!
Verification development for the test-case-backend repository.

The JavaScript sources are shallowly embedded as pure Lean functions:

* `worker.cjs`'s `createSignupAccounts` and `server.cjs`'s inline
  `/signup-agent` loop are modelled by `signupLoop`, parameterised by an
  oracle `attempt : Nat → Option String` abstracting the browser-driven
  UI interaction of one account (`none` = the eleven UI steps succeed,
  `some msg` = some step throws an error whose `.message` is `msg`) and
  `rand : Nat → Nat` abstracting `Math.floor(Math.random() * 1e8)`.
  Browser/page lifecycle effects are recorded in an event trace.
  Error-handling effects (screenshot, page close, browser close) are
  modelled as succeeding; a browser that fails to launch is outside the
  model (the claims condition on a successful launch).
* The queue producer (`/signup-agent` in the queue-based server), the
  BullMQ job-data parsing in `worker.cjs`, and the `/job-status/:jobId`
  route are modelled as functions on explicit request/queue states.
* The string normalisations (`toLowerCase`, `toUpperCase`, `trim`) are
  modelled character-by-character for ASCII, matching the JS semantics
  on ASCII strings.
* The flat-file metadata store is modelled with the file contents at the
  value level: the JSON round-trip of the external `JSON` builtin on
  `{id, name}` records is taken as faithful; the repository's own
  control flow (`existsSync`, `try`/`catch`, default `[]`) is embedded.
-/

namespace TestCaseBackend

/-- One entry of the `failures` array: `{ accountIndex, error }`. -/
structure AccountFailure where
  accountIndex : Nat
  error : String
deriving DecidableEq, Repr

/-- The `{ successes, failures }` object returned by `createSignupAccounts`. -/
structure SignupResult where
  successes : List String
  failures : List AccountFailure
deriving DecidableEq, Repr

/-- Browser/page lifecycle events, used to state serialization claims. -/
inductive BrowserEv where
  | launch
  | newPage (i : Nat)
  | screenshot (i : Nat)
  | closePage (i : Nat)
  | closeBrowser
deriving DecidableEq, Repr

/-- The unique email of iteration `i`: `aiqatest${rand}@yopmail.com`. -/
def emailFor (rand : Nat → Nat) (i : Nat) : String :=
  "aiqatest" ++ toString (rand i) ++ "@yopmail.com"

/-- Worker failure message: `Failed on account #${i + 1}: ${err.message}`. -/
def workerFailMsg (i : Nat) (msg : String) : String :=
  "Failed on account #" ++ toString (i + 1) ++ ": " ++ msg

/-- Inline-handler failure message: `Failed to create account #${i + 1}: ${err.message}`. -/
def serverFailMsg (i : Nat) (msg : String) : String :=
  "Failed to create account #" ++ toString (i + 1) ++ ": " ++ msg

/-- Page events of iteration `i`: a fresh page is opened; on failure a
screenshot is taken (the page is not yet closed at that point); the page
is closed in both cases (`finally` in the worker, explicit `close` in
both branches of the inline handler). -/
def iterEvents (attempt : Nat → Option String) (i : Nat) : List BrowserEv :=
  match attempt i with
  | none => [.newPage i, .closePage i]
  | some _ => [.newPage i, .screenshot i, .closePage i]

/-- The `for (let i = 0; i < n; i++)` loop shared by `createSignupAccounts`
(worker) and the inline `/signup-agent` handler (server), with `failMsg`
the per-file failure-message builder.  Each iteration opens a page, runs
the UI flow (the `attempt` oracle), pushes the email to `successes` or an
`{ accountIndex: i + 1, error }` entry to `failures`, and closes the page. -/
def signupLoop (attempt : Nat → Option String) (rand : Nat → Nat)
    (failMsg : Nat → String → String) : Nat → SignupResult × List BrowserEv
  | 0 => (⟨[], []⟩, [])
  | n + 1 =>
    let prev := signupLoop attempt rand failMsg n
    match attempt n with
    | none =>
      (⟨prev.1.successes ++ [emailFor rand n], prev.1.failures⟩,
       prev.2 ++ iterEvents attempt n)
    | some msg =>
      (⟨prev.1.successes, prev.1.failures ++ [⟨n + 1, failMsg n msg⟩]⟩,
       prev.2 ++ iterEvents attempt n)

/-- The JS `count || 1` on a number (`0` is falsy). -/
def jsOrOne (c : Int) : Int := if c = 0 then 1 else c

/-- Number of loop iterations for a JS count value `c`: `i < (c || 1)`. -/
def loopCount (c : Int) : Nat := (jsOrOne c).toNat

/-- `createSignupAccounts(count, environment, region)` from `worker.cjs`:
launches one browser, runs the per-account loop, closes the browser in a
`finally`, and returns `{ successes, failures }`.  `environment`/`region`
only steer the in-page radio selection, which the `attempt` oracle
abstracts. -/
def createSignupAccounts (attempt : Nat → Option String) (rand : Nat → Nat)
    (count : Int) (environment : String) (region : String) :
    SignupResult × List BrowserEv :=
  let body := signupLoop attempt rand workerFailMsg (loopCount count)
  (body.1, .launch :: (body.2 ++ [.closeBrowser]))

/-- Response of the inline `/signup-agent` handler in `server.cjs`:
`res.json({ success: true, successes, failures })`. -/
structure InlineResponse where
  status : Nat
  success : Bool
  successes : List String
  failures : List AccountFailure
deriving DecidableEq, Repr

/-- The JS `(count || 1)` where `count` is `req.body.count`
(`undefined` and `0` are falsy). -/
def jsCountOrOne : Option Int → Int
  | none => 1
  | some c => jsOrOne c

/-- The inline `/signup-agent` handler of `server.cjs` (successful-launch
path): same loop as the worker but with its own failure message, replying
`{ success: true, successes, failures }`. -/
def signupAgentInline (attempt : Nat → Option String) (rand : Nat → Nat)
    (count : Option Int) : InlineResponse × List BrowserEv :=
  let body := signupLoop attempt rand serverFailMsg (jsCountOrOne count).toNat
  (⟨200, true, body.1.successes, body.1.failures⟩,
   .launch :: (body.2 ++ [.closeBrowser]))

/-- The failure entry recorded for a failing index `i` (0-based). -/
def failureEntry (attempt : Nat → Option String)
    (failMsg : Nat → String → String) (i : Nat) : AccountFailure :=
  ⟨i + 1, failMsg i ((attempt i).getD "")⟩

/-- Closed form of the loop: successes, failures and the trace are the
images of the succeeding / failing indices of `0 .. n-1`, in order. -/
theorem signupLoop_spec (attempt : Nat → Option String) (rand : Nat → Nat)
    (failMsg : Nat → String → String) (n : Nat) :
    signupLoop attempt rand failMsg n =
      (⟨((List.range n).filter (fun i => (attempt i).isNone)).map (emailFor rand),
        ((List.range n).filter (fun i => (attempt i).isSome)).map
          (failureEntry attempt failMsg)⟩,
       (List.range n).flatMap (iterEvents attempt)) := by
  induction n with
  | zero => rfl
  | succ n ih =>
    rcases h : attempt n with _ | msg <;>
      simp [signupLoop, ih, h, List.range_succ, failureEntry, iterEvents]

lemma loopCount_of_pos {c : Int} (h : 1 ≤ c) : loopCount c = c.toNat := by
  unfold loopCount jsOrOne
  rw [if_neg (by omega)]

lemma failure_mem_signupLoop (attempt : Nat → Option String) (rand : Nat → Nat)
    (failMsg : Nat → String → String) {k n : Nat} {msg : String}
    (hk : k < n) (hfail : attempt k = some msg) :
    (⟨k + 1, failMsg k msg⟩ : AccountFailure) ∈
      (signupLoop attempt rand failMsg n).1.failures := by
  rw [signupLoop_spec]
  refine List.mem_map.mpr ⟨k, List.mem_filter.mpr ⟨List.mem_range.mpr hk, by simp [hfail]⟩, ?_⟩
  simp [failureEntry, hfail]

lemma closePage_mem_signupLoop (attempt : Nat → Option String) (rand : Nat → Nat)
    (failMsg : Nat → String → String) {k n : Nat} (hk : k < n) :
    BrowserEv.closePage k ∈ (signupLoop attempt rand failMsg n).2 := by
  rw [signupLoop_spec]
  refine List.mem_flatMap.mpr ⟨k, List.mem_range.mpr hk, ?_⟩
  rcases h : attempt k with _ | m <;> simp [iterEvents, h]

lemma newPage_mem_signupLoop (attempt : Nat → Option String) (rand : Nat → Nat)
    (failMsg : Nat → String → String) {k n : Nat} (hk : k < n) :
    BrowserEv.newPage k ∈ (signupLoop attempt rand failMsg n).2 := by
  rw [signupLoop_spec]
  refine List.mem_flatMap.mpr ⟨k, List.mem_range.mpr hk, ?_⟩
  rcases h : attempt k with _ | m <;> simp [iterEvents, h]

/-- Claim C1: for a requested count `n ≥ 1` (browser launch assumed
successful, as the claim hypothesises), an error thrown while creating
account `k + 1` does not abort the batch: the `{ accountIndex, error }`
entry is appended to `failures`, the failing page is closed, and every
account of the batch is still attempted (a fresh page is opened for each
index), both in the worker's `createSignupAccounts` and in the inline
`/signup-agent` handler of `server.cjs`. -/
theorem C1_per_account_failure_isolated
    (attempt : Nat → Option String) (rand : Nat → Nat)
    (count : Int) (environment region : String) (k : Nat) (msg : String)
    (hcount : 1 ≤ count) (hk : k < count.toNat)
    (hfail : attempt k = some msg) :
    (⟨k + 1, workerFailMsg k msg⟩ : AccountFailure) ∈
        (createSignupAccounts attempt rand count environment region).1.failures ∧
    BrowserEv.closePage k ∈ (createSignupAccounts attempt rand count environment region).2 ∧
    (∀ j, j < count.toNat →
      BrowserEv.newPage j ∈ (createSignupAccounts attempt rand count environment region).2) ∧
    (⟨k + 1, serverFailMsg k msg⟩ : AccountFailure) ∈
        (signupAgentInline attempt rand (some count)).1.failures ∧
    BrowserEv.closePage k ∈ (signupAgentInline attempt rand (some count)).2 ∧
    (∀ j, j < count.toNat →
      BrowserEv.newPage j ∈ (signupAgentInline attempt rand (some count)).2) := by
  have hn : loopCount count = count.toNat := loopCount_of_pos hcount
  have hn' : (jsCountOrOne (some count)).toNat = count.toNat := by
    simpa [jsCountOrOne] using congrArg Int.toNat (by
      unfold jsOrOne
      rw [if_neg (by omega)] :
      jsOrOne count = count)
  refine ⟨?_, ?_, ?_, ?_, ?_, ?_⟩
  · simpa [createSignupAccounts, hn] using
      failure_mem_signupLoop attempt rand workerFailMsg hk hfail
  · simp only [createSignupAccounts, hn]
    exact List.mem_cons_of_mem _ (List.mem_append_left _
      (closePage_mem_signupLoop attempt rand workerFailMsg hk))
  · intro j hj
    simp only [createSignupAccounts, hn]
    exact List.mem_cons_of_mem _ (List.mem_append_left _
      (newPage_mem_signupLoop attempt rand workerFailMsg hj))
  · simpa [signupAgentInline, hn'] using
      failure_mem_signupLoop attempt rand serverFailMsg hk hfail
  · simp only [signupAgentInline, hn']
    exact List.mem_cons_of_mem _ (List.mem_append_left _
      (closePage_mem_signupLoop attempt rand serverFailMsg hk))
  · intro j hj
    simp only [signupAgentInline, hn']
    exact List.mem_cons_of_mem _ (List.mem_append_left _
      (newPage_mem_signupLoop attempt rand serverFailMsg hj))

/-- Example oracle for witnesses: account #2 (index 1) fails, others succeed. -/
def exAttempt : Nat → Option String := fun i => if i = 1 then some "boom" else none

/-- Example randomness for witnesses. -/
def exRand : Nat → Nat := fun i => 10 * i + 7

theorem C1_per_account_failure_isolated_witness :
    (⟨2, workerFailMsg 1 "boom"⟩ : AccountFailure) ∈
        (createSignupAccounts exAttempt exRand 3 "dev" "US").1.failures ∧
    BrowserEv.closePage 1 ∈ (createSignupAccounts exAttempt exRand 3 "dev" "US").2 ∧
    (∀ j, j < (3 : Int).toNat →
      BrowserEv.newPage j ∈ (createSignupAccounts exAttempt exRand 3 "dev" "US").2) ∧
    (⟨2, serverFailMsg 1 "boom"⟩ : AccountFailure) ∈
        (signupAgentInline exAttempt exRand (some 3)).1.failures ∧
    BrowserEv.closePage 1 ∈ (signupAgentInline exAttempt exRand (some 3)).2 ∧
    (∀ j, j < (3 : Int).toNat →
      BrowserEv.newPage j ∈ (signupAgentInline exAttempt exRand (some 3)).2) :=
  C1_per_account_failure_isolated exAttempt exRand 3 "dev" "US" 1 "boom"
    (by decide) (by decide) rfl

lemma length_filter_isNone_add_isSome (attempt : Nat → Option String) (l : List Nat) :
    (l.filter (fun i => (attempt i).isNone)).length +
      (l.filter (fun i => (attempt i).isSome)).length = l.length := by
  induction l with
  | nil => rfl
  | cons a l ih => rcases h : attempt a with _ | m <;> simp [List.filter_cons, h] <;> omega

/-- Claim C2: each account index is attempted exactly once with no retry:
for `count ≥ 1` the result of `createSignupAccounts` satisfies
`successes.length + failures.length = count`, the successes are exactly
the emails of the succeeding indices and the failure indices are exactly
the failing indices (each loop index contributes to exactly one list),
and no `accountIndex` appears in `failures` more than once. -/
theorem C2_each_index_attempted_once
    (attempt : Nat → Option String) (rand : Nat → Nat)
    (count : Int) (environment region : String) (hcount : 1 ≤ count) :
    (createSignupAccounts attempt rand count environment region).1.successes.length +
      (createSignupAccounts attempt rand count environment region).1.failures.length =
        count.toNat ∧
    (createSignupAccounts attempt rand count environment region).1.successes =
      ((List.range count.toNat).filter (fun i => (attempt i).isNone)).map (emailFor rand) ∧
    (createSignupAccounts attempt rand count environment region).1.failures.map
        (fun f => f.accountIndex) =
      ((List.range count.toNat).filter (fun i => (attempt i).isSome)).map (fun i => i + 1) ∧
    ((createSignupAccounts attempt rand count environment region).1.failures.map
        (fun f => f.accountIndex)).Nodup := by
  have hn : loopCount count = count.toNat := loopCount_of_pos hcount
  have hidx : (createSignupAccounts attempt rand count environment region).1.failures.map
        (fun f => f.accountIndex) =
      ((List.range count.toNat).filter (fun i => (attempt i).isSome)).map (fun i => i + 1) := by
    simp [createSignupAccounts, hn, signupLoop_spec, List.map_map, Function.comp_def,
      failureEntry]
  refine ⟨?_, ?_, hidx, ?_⟩
  · have := length_filter_isNone_add_isSome attempt (List.range count.toNat)
    simp only [createSignupAccounts, hn, signupLoop_spec, List.length_map,
      List.length_range] at *
    omega
  · simp [createSignupAccounts, hn, signupLoop_spec]
  · rw [hidx]
    exact ((List.nodup_range _).filter _).map (fun a b h => by omega)

theorem C2_each_index_attempted_once_witness :
    (createSignupAccounts exAttempt exRand 3 "dev" "US").1.successes.length +
      (createSignupAccounts exAttempt exRand 3 "dev" "US").1.failures.length =
        (3 : Int).toNat ∧
    (createSignupAccounts exAttempt exRand 3 "dev" "US").1.successes =
      ((List.range (3 : Int).toNat).filter (fun i => (exAttempt i).isNone)).map
        (emailFor exRand) ∧
    (createSignupAccounts exAttempt exRand 3 "dev" "US").1.failures.map
        (fun f => f.accountIndex) =
      ((List.range (3 : Int).toNat).filter (fun i => (exAttempt i).isSome)).map
        (fun i => i + 1) ∧
    ((createSignupAccounts exAttempt exRand 3 "dev" "US").1.failures.map
        (fun f => f.accountIndex)).Nodup :=
  C2_each_index_attempted_once exAttempt exRand 3 "dev" "US" (by decide)

/-- `a` occurs strictly before `b` in the trace `t`. -/
def occursBefore (t : List BrowserEv) (a b : BrowserEv) : Prop :=
  ∃ l1 l2 l3, t = l1 ++ a :: l2 ++ b :: l3

lemma flatMap_range_decomp (f : Nat → List BrowserEv) {k n : Nat} (h : k < n) :
    ∃ B, (List.range n).flatMap f = (List.range k).flatMap f ++ (f k ++ B) := by
  induction n with
  | zero => omega
  | succ n ih =>
    rcases Nat.lt_or_ge k n with h' | h'
    · obtain ⟨B, hB⟩ := ih h'
      exact ⟨B ++ f n, by simp [List.range_succ, hB]⟩
    · have hk : k = n := by omega
      subst hk
      exact ⟨[], by simp [List.range_succ]⟩

lemma iterEvents_shape (attempt : Nat → Option String) (k : Nat) :
    ∃ mid, iterEvents attempt k =
      BrowserEv.newPage k :: (mid ++ [BrowserEv.closePage k]) := by
  rcases h : attempt k with _ | m
  · exact ⟨[], by simp [iterEvents, h]⟩
  · exact ⟨[BrowserEv.screenshot k], by simp [iterEvents, h]⟩

lemma launch_not_mem_iterEvents (attempt : Nat → Option String) (k : Nat) :
    BrowserEv.launch ∉ iterEvents attempt k := by
  rcases h : attempt k with _ | m <;> simp [iterEvents, h]

lemma launch_count_flatMap (attempt : Nat → Option String) (n : Nat) :
    ((List.range n).flatMap (iterEvents attempt)).count BrowserEv.launch = 0 := by
  rw [List.count_eq_zero]
  intro hmem
  obtain ⟨k, -, hk⟩ := List.mem_flatMap.mp hmem
  exact launch_not_mem_iterEvents attempt k hk

lemma createSignupAccounts_trace (attempt : Nat → Option String) (rand : Nat → Nat)
    (count : Int) (environment region : String) :
    (createSignupAccounts attempt rand count environment region).2 =
      BrowserEv.launch ::
        ((List.range (loopCount count)).flatMap (iterEvents attempt) ++
          [BrowserEv.closeBrowser]) := by
  simp [createSignupAccounts, signupLoop_spec]

/-- Claim C6: within a single job the accounts are created strictly
serially and in increasing index order: the browser is launched exactly
once (the first trace event, and `launch` appears exactly once), a fresh
page is opened for account `k + 1` and closed before account `k + 2` is
started, and the browser is closed after the last account (the final
trace event) whatever the attempt outcomes were. -/
theorem C6_serial_account_creation
    (attempt : Nat → Option String) (rand : Nat → Nat)
    (count : Int) (environment region : String) (hcount : 1 ≤ count) :
    (createSignupAccounts attempt rand count environment region).2.head? =
        some BrowserEv.launch ∧
    (createSignupAccounts attempt rand count environment region).2.count
        BrowserEv.launch = 1 ∧
    (createSignupAccounts attempt rand count environment region).2.getLast? =
        some BrowserEv.closeBrowser ∧
    (∀ k, k < count.toNat →
      occursBefore (createSignupAccounts attempt rand count environment region).2
        (BrowserEv.newPage k) (BrowserEv.closePage k)) ∧
    (∀ k, k + 1 < count.toNat →
      occursBefore (createSignupAccounts attempt rand count environment region).2
        (BrowserEv.closePage k) (BrowserEv.newPage (k + 1))) := by
  have hn : loopCount count = count.toNat := loopCount_of_pos hcount
  rw [createSignupAccounts_trace, hn]
  refine ⟨rfl, ?_, ?_, ?_, ?_⟩
  · simp [List.count_cons, List.count_append, launch_count_flatMap]
  · rw [← List.cons_append]
    exact List.getLast?_concat _
  · intro k hk
    obtain ⟨B, hB⟩ := flatMap_range_decomp (iterEvents attempt) hk
    obtain ⟨mid, hmid⟩ := iterEvents_shape attempt k
    refine ⟨BrowserEv.launch :: (List.range k).flatMap (iterEvents attempt), mid,
      B ++ [BrowserEv.closeBrowser], ?_⟩
    rw [hB, hmid]
    simp
  · intro k hk
    obtain ⟨B, hB⟩ := flatMap_range_decomp (iterEvents attempt) hk
    obtain ⟨mid, hmid⟩ := iterEvents_shape attempt k
    obtain ⟨mid', hmid'⟩ := iterEvents_shape attempt (k + 1)
    rw [List.range_succ] at hB
    refine ⟨BrowserEv.launch ::
        ((List.range k).flatMap (iterEvents attempt) ++ (BrowserEv.newPage k :: mid)),
      [], (mid' ++ [BrowserEv.closePage (k + 1)]) ++ (B ++ [BrowserEv.closeBrowser]), ?_⟩
    rw [hB]
    simp only [List.flatMap_append, List.flatMap_cons, List.flatMap_nil, List.append_nil]
    rw [hmid, hmid']
    simp

theorem C6_serial_account_creation_witness :
    (createSignupAccounts exAttempt exRand 3 "dev" "US").2.head? =
        some BrowserEv.launch ∧
    (createSignupAccounts exAttempt exRand 3 "dev" "US").2.count
        BrowserEv.launch = 1 ∧
    (createSignupAccounts exAttempt exRand 3 "dev" "US").2.getLast? =
        some BrowserEv.closeBrowser ∧
    (∀ k, k < (3 : Int).toNat →
      occursBefore (createSignupAccounts exAttempt exRand 3 "dev" "US").2
        (BrowserEv.newPage k) (BrowserEv.closePage k)) ∧
    (∀ k, k + 1 < (3 : Int).toNat →
      occursBefore (createSignupAccounts exAttempt exRand 3 "dev" "US").2
        (BrowserEv.closePage k) (BrowserEv.newPage (k + 1))) :=
  C6_serial_account_creation exAttempt exRand 3 "dev" "US" (by decide)

/-- ASCII model of JS `String.prototype.toLowerCase` on one character:
`A`–`Z` (codes 65–90) map 32 codes up, everything else is unchanged. -/
def lowerChar (c : Char) : Char :=
  if 65 ≤ c.toNat ∧ c.toNat ≤ 90 then Char.ofNat (c.toNat + 32) else c

/-- ASCII model of JS `String.prototype.toUpperCase` on one character:
`a`–`z` (codes 97–122) map 32 codes down, everything else is unchanged. -/
def upperChar (c : Char) : Char :=
  if 97 ≤ c.toNat ∧ c.toNat ≤ 122 then Char.ofNat (c.toNat - 32) else c

/-- ASCII whitespace trimmed by JS `String.prototype.trim`
(space, tab, line feed, carriage return). -/
def isJsWhitespace (c : Char) : Bool :=
  c.toNat == 32 || c.toNat == 9 || c.toNat == 10 || c.toNat == 13

/-- JS `toLowerCase` (ASCII model). -/
def jsLower (s : String) : String := ⟨s.data.map lowerChar⟩

/-- JS `toUpperCase` (ASCII model). -/
def jsUpper (s : String) : String := ⟨s.data.map upperChar⟩

/-- JS `trim` (ASCII-whitespace model). -/
def jsTrim (s : String) : String :=
  ⟨((s.data.dropWhile isJsWhitespace).reverse.dropWhile isJsWhitespace).reverse⟩

/-- Worker `norm(s)`: `String(s || '').toLowerCase().trim()` on a string value. -/
def norm (s : String) : String := jsTrim (jsLower s)

/-- Worker `wantedEnv(env)`: `norm(env) === 'staging' ? 'staging' : 'dev'`. -/
def wantedEnv (env : String) : String :=
  if norm env = "staging" then "staging" else "dev"

/-- Worker `wantedReg(reg)`: `norm(reg) === 'ca' ? 'ca' : 'us'`. -/
def wantedReg (reg : String) : String :=
  if norm reg = "ca" then "ca" else "us"

/-- Producer `safeEnv` on the string value of `environment ?? 'dev'`:
`envNorm === 'staging' ? 'staging' : 'dev'` with `envNorm = toLowerCase`. -/
def safeEnv (s : String) : String :=
  if jsLower s = "staging" then "staging" else "dev"

/-- Producer `safeRegion` on the string value of `region ?? 'US'`:
`regionNorm === 'CA' ? 'CA' : 'US'` with `regionNorm = toUpperCase`. -/
def safeRegion (s : String) : String :=
  if jsUpper s = "CA" then "CA" else "US"

/-- `job.data` of a `signup-jobs` job as read by the worker; absent
fields are `none`, and the two fields read from `job.data.payload` are
flattened. -/
structure JobData where
  countToCreate : Option Int
  count : Option Int
  environment : Option String
  env : Option String
  payloadEnvironment : Option String
  region : Option String
  reg : Option String
  payloadRegion : Option String
deriving DecidableEq, Repr

/-- The JS `||` on an optional string (`undefined` and `""` are falsy). -/
def jsStrOr : Option String → String → String
  | none, d => d
  | some s, d => if s = "" then d else s

/-- Worker parse: `Number(job.data.countToCreate ?? job.data.count ?? 1) || 1`. -/
def parsedCountToCreate (d : JobData) : Int :=
  jsOrOne (d.countToCreate.getD (d.count.getD 1))

/-- Worker parse:
`job.data.environment || job.data.env || job.data.payload?.environment || 'dev'`. -/
def parsedEnvironment (d : JobData) : String :=
  jsStrOr d.environment (jsStrOr d.env (jsStrOr d.payloadEnvironment "dev"))

/-- Worker parse:
`job.data.region || job.data.reg || job.data.payload?.region || 'US'`. -/
def parsedRegion (d : JobData) : String :=
  jsStrOr d.region (jsStrOr d.reg (jsStrOr d.payloadRegion "US"))

/-- The BullMQ job handler of the `signup-jobs` worker: parses the job
data and returns `createSignupAccounts`'s value as the job's return value. -/
def workerJobHandler (attempt : Nat → Option String) (rand : Nat → Nat)
    (d : JobData) : SignupResult :=
  (createSignupAccounts attempt rand (parsedCountToCreate d)
    (parsedEnvironment d) (parsedRegion d)).1

/-- A job as held by the queue: id, queue state (`job.getState()`), and
return value (`job.returnvalue`, absent until completion). -/
structure StoredJob where
  id : String
  state : String
  returnvalue : Option SignupResult
deriving DecidableEq, Repr

/-- `signupQueue.getJob(jobId)`: lookup by id. -/
def getJob (jobs : List StoredJob) (jobId : String) : Option StoredJob :=
  jobs.find? (fun j => j.id == jobId)

/-- Body of the `/job-status/:jobId` JSON response. -/
inductive JobStatusBody where
  | statusOnly (status : String)
  | statusResult (status : String) (result : Option SignupResult)
deriving DecidableEq, Repr

/-- `GET /job-status/:jobId`: 404 `{ status: 'not found' }` when the job
does not exist, else `{ status, result: job.returnvalue }`. -/
def jobStatusHandler (jobs : List StoredJob) (jobId : String) :
    Nat × JobStatusBody :=
  match getJob jobs jobId with
  | none => (404, .statusOnly "not found")
  | some j => (200, .statusResult j.state j.returnvalue)

/-- Claim C3: the worker's job handler returns the `{ successes, failures }`
object produced by `createSignupAccounts` as the job's return value, and
`GET /job-status/:jobId` responds with `{ status, result }` where `result`
is exactly that return value and `status` is the job's queue state; an
unknown id yields 404 `{ status: 'not found' }`. -/
theorem C3_job_status_reports_result
    (attempt : Nat → Option String) (rand : Nat → Nat)
    (jobs : List StoredJob) (jobId : String) :
    (∀ j d, getJob jobs jobId = some j →
      j.returnvalue = some (workerJobHandler attempt rand d) →
      jobStatusHandler jobs jobId =
        (200, JobStatusBody.statusResult j.state
          (some (createSignupAccounts attempt rand (parsedCountToCreate d)
            (parsedEnvironment d) (parsedRegion d)).1))) ∧
    (getJob jobs jobId = none →
      jobStatusHandler jobs jobId = (404, JobStatusBody.statusOnly "not found")) := by
  constructor
  · intro j d hj hr
    unfold jobStatusHandler
    rw [hj]
    simp only [hr]
    rfl
  · intro h
    unfold jobStatusHandler
    rw [h]

/-- Example job data for witnesses. -/
def exJobData : JobData :=
  ⟨some 2, none, some "staging", none, none, some "CA", none, none⟩

/-- Example queue content for witnesses. -/
def exJobs : List StoredJob :=
  [⟨"42", "completed", some (workerJobHandler exAttempt exRand exJobData)⟩]

theorem C3_job_status_reports_result_witness :
    jobStatusHandler exJobs "42" =
      (200, JobStatusBody.statusResult "completed"
        (some (createSignupAccounts exAttempt exRand (parsedCountToCreate exJobData)
          (parsedEnvironment exJobData) (parsedRegion exJobData)).1)) ∧
    jobStatusHandler exJobs "missing" = (404, JobStatusBody.statusOnly "not found") :=
  ⟨(C3_job_status_reports_result exAttempt exRand exJobs "42").1
      ⟨"42", "completed", some (workerJobHandler exAttempt exRand exJobData)⟩
      exJobData rfl rfl,
   (C3_job_status_reports_result exAttempt exRand exJobs "missing").2 rfl⟩

/-- Options of `new Worker('signup-jobs', handler, { ...workerConnection,
concurrency: 1 })`; `workerConnection` only carries the Redis connection,
so the spread leaves `concurrency` at 1. -/
structure WorkerOptions where
  queueName : String
  concurrency : Nat
deriving DecidableEq, Repr

/-- The options the `signup-jobs` worker is constructed with. -/
def signupWorkerOptions : WorkerOptions :=
  { queueName := "signup-jobs", concurrency := 1 }

/-- Modelled from the spec: BullMQ's dequeue loop ("no ordering guarantee
beyond FIFO dequeue, and concurrency is explicitly serialized to one job
at a time").  With concurrency 1 the worker takes jobs in enqueue (FIFO)
order and starts job `k + 1` only when job `k` has finished; `dur k` is
the processing duration of the `k`-th enqueued job. -/
def jobStart (dur : Nat → Nat) : Nat → Nat
  | 0 => 0
  | k + 1 => jobStart dur k + dur k

/-- Finish instant of the `k`-th job under the serialized schedule. -/
def jobFinish (dur : Nat → Nat) (k : Nat) : Nat := jobStart dur k + dur k

lemma jobStart_mono (dur : Nat → Nat) : Monotone (jobStart dur) :=
  monotone_nat_of_le_succ (fun k => by
    show jobStart dur k ≤ jobStart dur k + dur k
    exact Nat.le_add_right _ _)

/-- Claim C5: the `signup-jobs` worker is constructed with concurrency 1,
so (under the FIFO dequeue semantics modelled from the spec) the
account-creation runs of two distinct jobs never overlap in time — the
earlier job finishes no later than the later one starts — and jobs start
in FIFO (enqueue) order. -/
theorem C5_one_job_at_a_time (dur : Nat → Nat) :
    signupWorkerOptions.concurrency = 1 ∧
    (∀ i j, i < j → jobFinish dur i ≤ jobStart dur j) ∧
    (∀ i j, i ≤ j → jobStart dur i ≤ jobStart dur j) := by
  refine ⟨rfl, ?_, fun i j h => jobStart_mono dur h⟩
  intro i j h
  have : jobFinish dur i = jobStart dur (i + 1) := rfl
  rw [this]
  exact jobStart_mono dur h

/-- Example durations for the C5 witness. -/
def exDur : Nat → Nat := fun k => k + 2

theorem C5_one_job_at_a_time_witness :
    signupWorkerOptions.concurrency = 1 ∧
    jobFinish exDur 0 ≤ jobStart exDur 1 ∧
    jobStart exDur 0 ≤ jobStart exDur 1 :=
  ⟨(C5_one_job_at_a_time exDur).1,
   (C5_one_job_at_a_time exDur).2.1 0 1 (by decide),
   (C5_one_job_at_a_time exDur).2.2 0 1 (by decide)⟩

/-- Request body of the queue-based `POST /signup-agent`.  `count` holds
the value of `Number(req.body.count)`: `none` models a non-finite result
(`NaN` or an infinity, for which `Number.isFinite` is false, also after
`Math.floor`), `some q` a finite value. -/
structure SignupAgentBody where
  count : Option ℚ
  environment : Option String
  region : Option String

/-- A job added to the `signup-jobs` queue by `signupQueue.add(name, data)`. -/
structure EnqueuedJob where
  name : String
  countToCreate : Int
  environment : String
  region : String
deriving DecidableEq, Repr

/-- Body of the producer `/signup-agent` JSON response. -/
inductive AgentRespBody where
  | error (msg : String)
  | jobId (id : String)
deriving DecidableEq, Repr

/-- The queue-based `POST /signup-agent` handler: validates
`Math.floor(Number(count))`, normalises `environment`/`region`, adds one
`create-accounts-job` to the queue, and responds 202 `{ jobId }`.  Returns
the list of jobs added together with the response. -/
def signupAgentQueueHandler (newJobId : String) (b : SignupAgentBody) :
    List EnqueuedJob × (Nat × AgentRespBody) :=
  match b.count with
  | none => ([], (400, .error "A valid \"count\" number is required."))
  | some q =>
    let count : Int := ⌊q⌋
    if count < 1 then ([], (400, .error "A valid \"count\" number is required."))
    else if count > 3 then ([], (400, .error "Count must be between 1 and 3."))
    else
      ([{ name := "create-accounts-job",
          countToCreate := count,
          environment := safeEnv (b.environment.getD "dev"),
          region := safeRegion (b.region.getD "US") }],
       (202, .jobId newJobId))

/-- Claim C7: the queue-based `POST /signup-agent` validates `count`
before enqueueing: a non-finite or `< 1` floored count is rejected 400
with `A valid "count" number is required.`, a floored count `> 3` is
rejected 400 with `Count must be between 1 and 3.`, in both cases no job
is added, and every job the endpoint enqueues has `1 ≤ countToCreate ≤ 3`. -/
theorem C7_count_validated_before_enqueue :
    (∀ id env reg, signupAgentQueueHandler id ⟨none, env, reg⟩ =
      ([], (400, AgentRespBody.error "A valid \"count\" number is required."))) ∧
    (∀ id q env reg, ⌊q⌋ < (1 : Int) →
      signupAgentQueueHandler id ⟨some q, env, reg⟩ =
        ([], (400, AgentRespBody.error "A valid \"count\" number is required."))) ∧
    (∀ id q env reg, (3 : Int) < ⌊q⌋ →
      signupAgentQueueHandler id ⟨some q, env, reg⟩ =
        ([], (400, AgentRespBody.error "Count must be between 1 and 3."))) ∧
    (∀ id b, ∀ j ∈ (signupAgentQueueHandler id b).1,
      1 ≤ j.countToCreate ∧ j.countToCreate ≤ 3) := by
  refine ⟨fun id env reg => rfl, ?_, ?_, ?_⟩
  · intro id q env reg h
    simp [signupAgentQueueHandler, h]
  · intro id q env reg h
    have h1 : ¬ ⌊q⌋ < (1 : Int) := by omega
    simp [signupAgentQueueHandler, h, h1]
  · intro id b j hj
    rcases b with ⟨_ | q, env, reg⟩
    · simp [signupAgentQueueHandler] at hj
    · by_cases h1 : ⌊q⌋ < (1 : Int)
      · simp [signupAgentQueueHandler, h1] at hj
      · by_cases h3 : (3 : Int) < ⌊q⌋
        · simp [signupAgentQueueHandler, h1, h3] at hj
        · simp [signupAgentQueueHandler, h1, h3] at hj
          subst hj
          constructor <;> simp <;> omega

theorem C7_count_validated_before_enqueue_witness :
    signupAgentQueueHandler "j1" ⟨none, none, none⟩ =
      ([], (400, AgentRespBody.error "A valid \"count\" number is required.")) ∧
    signupAgentQueueHandler "j1" ⟨some 0, none, none⟩ =
      ([], (400, AgentRespBody.error "A valid \"count\" number is required.")) ∧
    signupAgentQueueHandler "j1" ⟨some 7, none, none⟩ =
      ([], (400, AgentRespBody.error "Count must be between 1 and 3.")) ∧
    (1 ≤ (⟨"create-accounts-job", 2, "dev", "US"⟩ : EnqueuedJob).countToCreate ∧
      (⟨"create-accounts-job", 2, "dev", "US"⟩ : EnqueuedJob).countToCreate ≤ 3) :=
  ⟨C7_count_validated_before_enqueue.1 "j1" none none,
   C7_count_validated_before_enqueue.2.1 "j1" 0 none none (by norm_num),
   C7_count_validated_before_enqueue.2.2.1 "j1" 7 none none (by norm_num),
   C7_count_validated_before_enqueue.2.2.2 "j1" ⟨some 2, none, none⟩
     ⟨"create-accounts-job", 2, "dev", "US"⟩ (by decide)⟩

/-- The stored `job.data` of an enqueued job, as the worker sees it. -/
def dataOfJob (j : EnqueuedJob) : JobData :=
  ⟨some j.countToCreate, none, some j.environment, none, none,
   some j.region, none, none⟩

/-- Job data with every field absent (all defaults on the worker side). -/
def emptyJobData : JobData := ⟨none, none, none, none, none, none, none, none⟩

/-- Job data using only the legacy field names `count`, `env` and `reg`. -/
def legacyJobData (c : Int) (e r : String) : JobData :=
  ⟨none, some c, none, some e, none, none, some r, none⟩

/-- Claim C4: for a valid count, `POST /signup-agent` enqueues exactly one
`create-accounts-job` whose data holds `countToCreate`, `environment` and
`region` derived from the request body and responds 202 `{ jobId }`; the
worker's job handler reads back exactly these three values from that job,
also accepts the legacy field names `count`, `env` and `reg`, and defaults
to `1`, `'dev'` and `'US'` when all the fields are absent. -/
theorem C4_enqueue_one_job_and_worker_reads_it_back
    (id : String) (b : SignupAgentBody) (q : ℚ)
    (hq : b.count = some q) (h1 : 1 ≤ ⌊q⌋) (h3 : ⌊q⌋ ≤ 3) :
    (signupAgentQueueHandler id b).1 =
      [⟨"create-accounts-job", ⌊q⌋, safeEnv (b.environment.getD "dev"),
        safeRegion (b.region.getD "US")⟩] ∧
    (signupAgentQueueHandler id b).2 = (202, AgentRespBody.jobId id) ∧
    (∀ j ∈ (signupAgentQueueHandler id b).1,
      parsedCountToCreate (dataOfJob j) = j.countToCreate ∧
      parsedEnvironment (dataOfJob j) = j.environment ∧
      parsedRegion (dataOfJob j) = j.region) ∧
    (∀ c : Int, c ≠ 0 → parsedCountToCreate (legacyJobData c "x" "y") = c) ∧
    (∀ e r : String, e ≠ "" → r ≠ "" →
      parsedEnvironment (legacyJobData 1 e r) = e ∧
      parsedRegion (legacyJobData 1 e r) = r) ∧
    parsedCountToCreate emptyJobData = 1 ∧
    parsedEnvironment emptyJobData = "dev" ∧
    parsedRegion emptyJobData = "US" := by
  have hmain : (signupAgentQueueHandler id b).1 =
      [⟨"create-accounts-job", ⌊q⌋, safeEnv (b.environment.getD "dev"),
        safeRegion (b.region.getD "US")⟩] ∧
      (signupAgentQueueHandler id b).2 = (202, AgentRespBody.jobId id) := by
    rcases b with ⟨c, env, reg⟩
    cases hq
    have hlt : ¬ ⌊q⌋ < (1 : Int) := by omega
    have hgt : ¬ (3 : Int) < ⌊q⌋ := by omega
    constructor <;> simp [signupAgentQueueHandler, hlt, hgt]
  have henv : safeEnv (b.environment.getD "dev") ≠ "" := by
    unfold safeEnv
    split <;> simp
  have hreg : safeRegion (b.region.getD "US") ≠ "" := by
    unfold safeRegion
    split <;> simp
  refine ⟨hmain.1, hmain.2, ?_, ?_, ?_, rfl, rfl, rfl⟩
  · intro j hj
    rw [hmain.1] at hj
    simp only [List.mem_singleton] at hj
    subst hj
    refine ⟨?_, ?_, ?_⟩
    · have h0 : ¬ ⌊q⌋ = (0 : Int) := by omega
      simp [parsedCountToCreate, dataOfJob, jsOrOne, h0]
    · simp [parsedEnvironment, dataOfJob, jsStrOr, henv]
    · simp [parsedRegion, dataOfJob, jsStrOr, hreg]
  · intro c hc
    simp [parsedCountToCreate, legacyJobData, jsOrOne, hc]
  · intro e r he hr
    constructor
    · simp [parsedEnvironment, legacyJobData, jsStrOr, he]
    · simp [parsedRegion, legacyJobData, jsStrOr, hr]

theorem C4_enqueue_one_job_and_worker_reads_it_back_witness :
    (signupAgentQueueHandler "7" ⟨some 2, some "Staging", some "ca"⟩).1 =
      [⟨"create-accounts-job", ⌊(2 : ℚ)⌋,
        safeEnv ((some "Staging").getD "dev"), safeRegion ((some "ca").getD "US")⟩] ∧
    (signupAgentQueueHandler "7" ⟨some 2, some "Staging", some "ca"⟩).2 =
      (202, AgentRespBody.jobId "7") ∧
    (∀ j ∈ (signupAgentQueueHandler "7" ⟨some 2, some "Staging", some "ca"⟩).1,
      parsedCountToCreate (dataOfJob j) = j.countToCreate ∧
      parsedEnvironment (dataOfJob j) = j.environment ∧
      parsedRegion (dataOfJob j) = j.region) ∧
    (∀ c : Int, c ≠ 0 → parsedCountToCreate (legacyJobData c "x" "y") = c) ∧
    (∀ e r : String, e ≠ "" → r ≠ "" →
      parsedEnvironment (legacyJobData 1 e r) = e ∧
      parsedRegion (legacyJobData 1 e r) = r) ∧
    parsedCountToCreate emptyJobData = 1 ∧
    parsedEnvironment emptyJobData = "dev" ∧
    parsedRegion emptyJobData = "US" :=
  C4_enqueue_one_job_and_worker_reads_it_back "7"
    ⟨some 2, some "Staging", some "ca"⟩ 2 rfl (by norm_num) (by norm_num)

lemma char_toNat_ofNat {n : Nat} (h : n ≤ 122) : (Char.ofNat n).toNat = n := by
  unfold Char.ofNat
  rw [dif_pos (by unfold Nat.isValidChar; omega)]
  rfl

lemma char_eq_iff_toNat {a b : Char} : a = b ↔ a.toNat = b.toNat := by
  constructor
  · intro h
    rw [h]
  · intro h
    rw [← Char.ofNat_toNat a, ← Char.ofNat_toNat b, h]

lemma isJsWhitespace_lowerChar (c : Char) :
    isJsWhitespace (lowerChar c) = isJsWhitespace c := by
  unfold lowerChar
  split
  next h =>
    have ht : (Char.ofNat (c.toNat + 32)).toNat = c.toNat + 32 :=
      char_toNat_ofNat (by omega)
    have h1 : isJsWhitespace (Char.ofNat (c.toNat + 32)) = false := by
      simp only [isJsWhitespace, ht, Bool.or_eq_false_iff, beq_eq_false_iff_ne, ne_eq]
      refine ⟨⟨⟨?_, ?_⟩, ?_⟩, ?_⟩ <;> omega
    have h2 : isJsWhitespace c = false := by
      simp only [isJsWhitespace, Bool.or_eq_false_iff, beq_eq_false_iff_ne, ne_eq]
      refine ⟨⟨⟨?_, ?_⟩, ?_⟩, ?_⟩ <;> omega
    rw [h1, h2]
  next h => rfl

lemma upperChar_eq_C_iff (c : Char) : upperChar c = 'C' ↔ c = 'C' ∨ c = 'c' := by
  unfold upperChar
  have hC : ('C' : Char).toNat = 67 := rfl
  have hc : ('c' : Char).toNat = 99 := rfl
  split
  next h =>
    have ht : (Char.ofNat (c.toNat - 32)).toNat = c.toNat - 32 :=
      char_toNat_ofNat (by omega)
    simp only [char_eq_iff_toNat, ht, hC, hc]
    omega
  next h =>
    simp only [char_eq_iff_toNat, hC, hc]
    omega

lemma upperChar_eq_A_iff (c : Char) : upperChar c = 'A' ↔ c = 'A' ∨ c = 'a' := by
  unfold upperChar
  have hA : ('A' : Char).toNat = 65 := rfl
  have ha : ('a' : Char).toNat = 97 := rfl
  split
  next h =>
    have ht : (Char.ofNat (c.toNat - 32)).toNat = c.toNat - 32 :=
      char_toNat_ofNat (by omega)
    simp only [char_eq_iff_toNat, ht, hA, ha]
    omega
  next h =>
    simp only [char_eq_iff_toNat, hA, ha]
    omega

lemma lowerChar_eq_c_iff (c : Char) : lowerChar c = 'c' ↔ c = 'C' ∨ c = 'c' := by
  unfold lowerChar
  have hC : ('C' : Char).toNat = 67 := rfl
  have hc : ('c' : Char).toNat = 99 := rfl
  split
  next h =>
    have ht : (Char.ofNat (c.toNat + 32)).toNat = c.toNat + 32 :=
      char_toNat_ofNat (by omega)
    simp only [char_eq_iff_toNat, ht, hC, hc]
    omega
  next h =>
    simp only [char_eq_iff_toNat, hC, hc]
    omega

lemma lowerChar_eq_a_iff (c : Char) : lowerChar c = 'a' ↔ c = 'A' ∨ c = 'a' := by
  unfold lowerChar
  have hA : ('A' : Char).toNat = 65 := rfl
  have ha : ('a' : Char).toNat = 97 := rfl
  split
  next h =>
    have ht : (Char.ofNat (c.toNat + 32)).toNat = c.toNat + 32 :=
      char_toNat_ofNat (by omega)
    simp only [char_eq_iff_toNat, ht, hA, ha]
    omega
  next h =>
    simp only [char_eq_iff_toNat, hA, ha]
    omega

lemma dropWhile_map_lowerChar (l : List Char) :
    (l.map lowerChar).dropWhile isJsWhitespace =
      (l.dropWhile isJsWhitespace).map lowerChar := by
  have hp : (isJsWhitespace ∘ lowerChar) = isJsWhitespace :=
    funext isJsWhitespace_lowerChar
  rw [List.dropWhile_map, hp]

lemma jsTrim_jsLower_comm (s : String) : jsTrim (jsLower s) = jsLower (jsTrim s) := by
  show (⟨_⟩ : String) = ⟨_⟩
  congr 1
  show ((((s.data.map lowerChar).dropWhile isJsWhitespace).reverse.dropWhile
      isJsWhitespace)).reverse =
    ((((s.data.dropWhile isJsWhitespace).reverse.dropWhile
      isJsWhitespace)).reverse).map lowerChar
  rw [dropWhile_map_lowerChar, ← List.map_reverse, dropWhile_map_lowerChar,
    ← List.map_reverse]

lemma norm_of_trimmed {s : String} (h : jsTrim s = s) : norm s = jsLower s := by
  rw [norm, jsTrim_jsLower_comm, h]

lemma map_upperChar_CA_iff (l : List Char) :
    l.map upperChar = ['C', 'A'] ↔ l.map lowerChar = ['c', 'a'] := by
  match l with
  | [] => simp
  | [x] => simp
  | x :: y :: z :: t => simp
  | [x, y] =>
    simp only [List.map_cons, List.map_nil, List.cons.injEq, and_true]
    constructor
    · rintro ⟨hx, hy⟩
      exact ⟨(lowerChar_eq_c_iff x).mpr ((upperChar_eq_C_iff x).mp hx),
        (lowerChar_eq_a_iff y).mpr ((upperChar_eq_A_iff y).mp hy)⟩
    · rintro ⟨hx, hy⟩
      exact ⟨(upperChar_eq_C_iff x).mpr ((lowerChar_eq_c_iff x).mp hx),
        (upperChar_eq_A_iff y).mpr ((lowerChar_eq_a_iff y).mp hy)⟩

lemma jsUpper_CA_iff_jsLower_ca (s : String) :
    jsUpper s = "CA" ↔ jsLower s = "ca" := by
  constructor
  · intro h
    have hl : s.data.map upperChar = ['C', 'A'] := congrArg String.data h
    exact congrArg String.mk ((map_upperChar_CA_iff s.data).mp hl)
  · intro h
    have hl : s.data.map lowerChar = ['c', 'a'] := congrArg String.data h
    exact congrArg String.mk ((map_upperChar_CA_iff s.data).mpr hl)

/-- Claim C8, counterexample: the producer's normalisation does not trim,
the worker's does, so applying the worker's normalisation to the
producer's output differs from applying it directly to a raw input with
surrounding whitespace: on `" staging"` the composition selects `dev`
while the worker alone selects `staging`, and on `" ca"` the composition
selects `us` while the worker alone selects `ca`. -/
theorem C8_normalization_agreement_counterexample :
    wantedEnv (safeEnv " staging") = "dev" ∧
    wantedEnv " staging" = "staging" ∧
    wantedReg (safeRegion " ca") = "us" ∧
    wantedReg " ca" = "ca" := by decide

/-- Claim C8, amended: for raw inputs without surrounding whitespace
(`jsTrim s = s`) the producer's and the worker's normalisations agree —
the worker applied to the producer's normalised output selects the same
environment and region as the worker applied to the raw input — and both
normalisations are idempotent on every string. -/
theorem C8_normalization_agreement_on_trimmed
    (s : String) (h : jsTrim s = s) :
    wantedEnv (safeEnv s) = wantedEnv s ∧
    wantedReg (safeRegion s) = wantedReg s ∧
    (∀ t : String,
      wantedEnv (wantedEnv t) = wantedEnv t ∧
      wantedReg (wantedReg t) = wantedReg t ∧
      safeEnv (safeEnv t) = safeEnv t ∧
      safeRegion (safeRegion t) = safeRegion t) := by
  have hnorm : norm s = jsLower s := norm_of_trimmed h
  refine ⟨?_, ?_, ?_⟩
  · by_cases hs : jsLower s = "staging"
    · have h1 : safeEnv s = "staging" := by simp [safeEnv, hs]
      have h2 : wantedEnv "staging" = "staging" := by decide
      rw [h1, h2, wantedEnv, hnorm, if_pos hs]
    · have h1 : safeEnv s = "dev" := by simp [safeEnv, hs]
      have h2 : wantedEnv "dev" = "dev" := by decide
      rw [h1, h2, wantedEnv, hnorm, if_neg hs]
  · by_cases hs : jsUpper s = "CA"
    · have h1 : safeRegion s = "CA" := by simp [safeRegion, hs]
      have h2 : wantedReg "CA" = "ca" := by decide
      rw [h1, h2, wantedReg, hnorm, if_pos ((jsUpper_CA_iff_jsLower_ca s).mp hs)]
    · have h1 : safeRegion s = "US" := by simp [safeRegion, hs]
      have hs' : ¬ jsLower s = "ca" := fun hc =>
        hs ((jsUpper_CA_iff_jsLower_ca s).mpr hc)
      have h2 : wantedReg "US" = "us" := by decide
      rw [h1, h2, wantedReg, hnorm, if_neg hs']
  · intro t
    have e1 : wantedEnv t = "staging" ∨ wantedEnv t = "dev" := by
      unfold wantedEnv
      split_ifs <;> simp
    have e2 : wantedReg t = "ca" ∨ wantedReg t = "us" := by
      unfold wantedReg
      split_ifs <;> simp
    have e3 : safeEnv t = "staging" ∨ safeEnv t = "dev" := by
      unfold safeEnv
      split_ifs <;> simp
    have e4 : safeRegion t = "CA" ∨ safeRegion t = "US" := by
      unfold safeRegion
      split_ifs <;> simp
    refine ⟨?_, ?_, ?_, ?_⟩
    · rcases e1 with h1 | h1 <;> rw [h1] <;> decide
    · rcases e2 with h1 | h1 <;> rw [h1] <;> decide
    · rcases e3 with h1 | h1 <;> rw [h1] <;> decide
    · rcases e4 with h1 | h1 <;> rw [h1] <;> decide

theorem C8_normalization_agreement_on_trimmed_witness :
    wantedEnv (safeEnv "Staging") = wantedEnv "Staging" ∧
    wantedReg (safeRegion "Staging") = wantedReg "Staging" ∧
    (∀ t : String,
      wantedEnv (wantedEnv t) = wantedEnv t ∧
      wantedReg (wantedReg t) = wantedReg t ∧
      safeEnv (safeEnv t) = safeEnv t ∧
      safeRegion (safeRegion t) = safeRegion t) :=
  C8_normalization_agreement_on_trimmed "Staging" (by decide)

/-- Request body of the three generate routes. `input` is `none` when the
field is absent; `useKnowledgeBase` is the truthiness of the field. -/
structure GenerateBody where
  input : Option String
  useKnowledgeBase : Bool
deriving DecidableEq, Repr

/-- JS falsiness of `req.body.input` (`undefined` or the empty string). -/
def jsFalsyStr : Option String → Bool
  | none => true
  | some s => s == ""

/-- Body of a generate route's JSON response. -/
inductive GenerateRespBody where
  | error (msg : String)
  | output (text : String)
deriving DecidableEq, Repr

/-- Observable behaviour of one generate-route invocation: the similarity
searches issued, the prompts sent to the LLM provider, the provider model
used, and the HTTP response. -/
structure RouteEffects where
  searches : List String
  providerPrompts : List String
  providerModel : String
  response : Nat × GenerateRespBody
deriving DecidableEq, Repr

/-- Models the external `vectorStore.similaritySearch(q, k)`: `ranked q`
is the relevance-ranked chunk list held by the vector store, and the call
returns its first `k` elements (so at most `k`). -/
def similaritySearch (ranked : String → List String) (q : String) (k : Nat) :
    List String :=
  (ranked q).take k

/-- The RAG prompt template:
`Based on the following context...\n\n[CONTEXT]\n${context}\n\n[USER REQUEST]\n${input}`. -/
def ragPrompt (context input : String) : String :=
  "Based on the following context...\n\n[CONTEXT]\n" ++ context ++
    "\n\n[USER REQUEST]\n" ++ input

/-- Shared body of `POST /generate-test-cases`,
`/generate-gemini-test-cases` and `/generate-claude-test-cases` (the
three handlers are textually identical up to provider and model):
reject a missing input with 400, otherwise optionally augment the prompt
with context from a 3-chunk similarity search and forward it to the
provider, whose completion `reply` abstracts. -/
def generateWithKnowledgeBase (modelName : String)
    (ranked : String → List String) (reply : String → String)
    (b : GenerateBody) : RouteEffects :=
  match b.input with
  | none => ⟨[], [], modelName, (400, .error "Input is required")⟩
  | some input =>
    if input = "" then ⟨[], [], modelName, (400, .error "Input is required")⟩
    else if b.useKnowledgeBase then
      let relevantDocs := similaritySearch ranked input 3
      let context := String.intercalate "\n---\n" relevantDocs
      let finalInput := ragPrompt context input
      ⟨[input], [finalInput], modelName, (200, .output (reply finalInput))⟩
    else
      ⟨[], [input], modelName, (200, .output (reply input))⟩

/-- `POST /generate-test-cases` (OpenAI, `gpt-3.5-turbo`). -/
def generateTestCases : (String → List String) → (String → String) →
    GenerateBody → RouteEffects :=
  generateWithKnowledgeBase "gpt-3.5-turbo"

/-- `POST /generate-gemini-test-cases` (Gemini, `gemini-1.5-flash`). -/
def generateGeminiTestCases : (String → List String) → (String → String) →
    GenerateBody → RouteEffects :=
  generateWithKnowledgeBase "gemini-1.5-flash"

/-- `POST /generate-claude-test-cases` (Claude, `claude-3-5-sonnet-20240620`). -/
def generateClaudeTestCases : (String → List String) → (String → String) →
    GenerateBody → RouteEffects :=
  generateWithKnowledgeBase "claude-3-5-sonnet-20240620"

lemma generateWithKnowledgeBase_falsy (modelName : String)
    (ranked : String → List String) (reply : String → String)
    (b : GenerateBody) (h : jsFalsyStr b.input = true) :
    generateWithKnowledgeBase modelName ranked reply b =
      ⟨[], [], modelName, (400, .error "Input is required")⟩ := by
  rcases b with ⟨_ | s, kb⟩
  · rfl
  · simp only [jsFalsyStr, beq_iff_eq] at h
    subst h
    simp [generateWithKnowledgeBase]

lemma generateWithKnowledgeBase_plain (modelName : String)
    (ranked : String → List String) (reply : String → String)
    {input : String} (h : input ≠ "") :
    generateWithKnowledgeBase modelName ranked reply ⟨some input, false⟩ =
      ⟨[], [input], modelName, (200, .output (reply input))⟩ := by
  simp [generateWithKnowledgeBase, h]

lemma generateWithKnowledgeBase_rag (modelName : String)
    (ranked : String → List String) (reply : String → String)
    {input : String} (h : input ≠ "") :
    generateWithKnowledgeBase modelName ranked reply ⟨some input, true⟩ =
      ⟨[input],
       [ragPrompt (String.intercalate "\n---\n" (similaritySearch ranked input 3)) input],
       modelName,
       (200, .output (reply
         (ragPrompt (String.intercalate "\n---\n" (similaritySearch ranked input 3))
           input)))⟩ := by
  simp [generateWithKnowledgeBase, h]

/-- Claim C9: for each of the three generate routes of the queue-based
server: a missing (or empty, hence falsy) `input` is rejected 400 with
`Input is required` and neither a similarity search nor a provider call
is made; with `useKnowledgeBase` falsy the prompt sent to the provider is
exactly the request's input; with `useKnowledgeBase` truthy the prompt is
the input wrapped with context built from the at most 3 chunks returned
by the vector-store similarity search on the input. -/
theorem C9_generate_routes_prompt_shape
    (ranked : String → List String) (reply : String → String) :
    (∀ b, jsFalsyStr b.input = true →
      generateTestCases ranked reply b =
        ⟨[], [], "gpt-3.5-turbo", (400, .error "Input is required")⟩ ∧
      generateGeminiTestCases ranked reply b =
        ⟨[], [], "gemini-1.5-flash", (400, .error "Input is required")⟩ ∧
      generateClaudeTestCases ranked reply b =
        ⟨[], [], "claude-3-5-sonnet-20240620", (400, .error "Input is required")⟩) ∧
    (∀ input : String, input ≠ "" →
      generateTestCases ranked reply ⟨some input, false⟩ =
        ⟨[], [input], "gpt-3.5-turbo", (200, .output (reply input))⟩ ∧
      generateGeminiTestCases ranked reply ⟨some input, false⟩ =
        ⟨[], [input], "gemini-1.5-flash", (200, .output (reply input))⟩ ∧
      generateClaudeTestCases ranked reply ⟨some input, false⟩ =
        ⟨[], [input], "claude-3-5-sonnet-20240620", (200, .output (reply input))⟩) ∧
    (∀ input : String, input ≠ "" →
      (similaritySearch ranked input 3).length ≤ 3 ∧
      generateTestCases ranked reply ⟨some input, true⟩ =
        ⟨[input],
         [ragPrompt (String.intercalate "\n---\n" (similaritySearch ranked input 3))
           input],
         "gpt-3.5-turbo",
         (200, .output (reply
           (ragPrompt (String.intercalate "\n---\n" (similaritySearch ranked input 3))
             input)))⟩ ∧
      generateGeminiTestCases ranked reply ⟨some input, true⟩ =
        ⟨[input],
         [ragPrompt (String.intercalate "\n---\n" (similaritySearch ranked input 3))
           input],
         "gemini-1.5-flash",
         (200, .output (reply
           (ragPrompt (String.intercalate "\n---\n" (similaritySearch ranked input 3))
             input)))⟩ ∧
      generateClaudeTestCases ranked reply ⟨some input, true⟩ =
        ⟨[input],
         [ragPrompt (String.intercalate "\n---\n" (similaritySearch ranked input 3))
           input],
         "claude-3-5-sonnet-20240620",
         (200, .output (reply
           (ragPrompt (String.intercalate "\n---\n" (similaritySearch ranked input 3))
             input)))⟩) := by
  refine ⟨?_, ?_, ?_⟩
  · intro b h
    exact ⟨generateWithKnowledgeBase_falsy _ ranked reply b h,
      generateWithKnowledgeBase_falsy _ ranked reply b h,
      generateWithKnowledgeBase_falsy _ ranked reply b h⟩
  · intro input h
    exact ⟨generateWithKnowledgeBase_plain _ ranked reply h,
      generateWithKnowledgeBase_plain _ ranked reply h,
      generateWithKnowledgeBase_plain _ ranked reply h⟩
  · intro input h
    refine ⟨?_, generateWithKnowledgeBase_rag _ ranked reply h,
      generateWithKnowledgeBase_rag _ ranked reply h,
      generateWithKnowledgeBase_rag _ ranked reply h⟩
    simp [similaritySearch]

/-- Example ranked chunk list for witnesses. -/
def exRanked : String → List String :=
  fun q => [q ++ " c1", q ++ " c2", q ++ " c3", q ++ " c4"]

/-- Example provider completion for witnesses. -/
def exReply : String → String := fun p => "ok: " ++ p

theorem C9_generate_routes_prompt_shape_witness :
    (generateTestCases exRanked exReply ⟨none, true⟩ =
        ⟨[], [], "gpt-3.5-turbo", (400, .error "Input is required")⟩ ∧
      generateGeminiTestCases exRanked exReply ⟨none, true⟩ =
        ⟨[], [], "gemini-1.5-flash", (400, .error "Input is required")⟩ ∧
      generateClaudeTestCases exRanked exReply ⟨none, true⟩ =
        ⟨[], [], "claude-3-5-sonnet-20240620", (400, .error "Input is required")⟩) ∧
    (generateTestCases exRanked exReply ⟨some "hi", false⟩ =
        ⟨[], ["hi"], "gpt-3.5-turbo", (200, .output (exReply "hi"))⟩ ∧
      generateGeminiTestCases exRanked exReply ⟨some "hi", false⟩ =
        ⟨[], ["hi"], "gemini-1.5-flash", (200, .output (exReply "hi"))⟩ ∧
      generateClaudeTestCases exRanked exReply ⟨some "hi", false⟩ =
        ⟨[], ["hi"], "claude-3-5-sonnet-20240620", (200, .output (exReply "hi"))⟩) ∧
    ((similaritySearch exRanked "hi" 3).length ≤ 3 ∧
      generateTestCases exRanked exReply ⟨some "hi", true⟩ =
        ⟨["hi"],
         [ragPrompt (String.intercalate "\n---\n" (similaritySearch exRanked "hi" 3))
           "hi"],
         "gpt-3.5-turbo",
         (200, .output (exReply
           (ragPrompt (String.intercalate "\n---\n" (similaritySearch exRanked "hi" 3))
             "hi")))⟩ ∧
      generateGeminiTestCases exRanked exReply ⟨some "hi", true⟩ =
        ⟨["hi"],
         [ragPrompt (String.intercalate "\n---\n" (similaritySearch exRanked "hi" 3))
           "hi"],
         "gemini-1.5-flash",
         (200, .output (exReply
           (ragPrompt (String.intercalate "\n---\n" (similaritySearch exRanked "hi" 3))
             "hi")))⟩ ∧
      generateClaudeTestCases exRanked exReply ⟨some "hi", true⟩ =
        ⟨["hi"],
         [ragPrompt (String.intercalate "\n---\n" (similaritySearch exRanked "hi" 3))
           "hi"],
         "claude-3-5-sonnet-20240620",
         (200, .output (exReply
           (ragPrompt (String.intercalate "\n---\n" (similaritySearch exRanked "hi" 3))
             "hi")))⟩) :=
  ⟨(C9_generate_routes_prompt_shape exRanked exReply).1 ⟨none, true⟩ rfl,
   (C9_generate_routes_prompt_shape exRanked exReply).2.1 "hi" (by decide),
   (C9_generate_routes_prompt_shape exRanked exReply).2.2 "hi" (by decide)⟩

/-- A record of the flat-file metadata store: `{ id, name }`. -/
structure DocRecord where
  id : String
  name : String
deriving DecidableEq, Repr

/-- State of `document-list.json`.  `absent`: `existsSync` is false;
`unreadable`: `readFileSync` throws; `invalid`: `JSON.parse` throws;
`stored d`: the file holds the JSON serialisation of `d` (the external
`JSON` builtin's round-trip on `{id, name}` string records is taken as
faithful, so contents are modelled at the value level). -/
inductive FileState where
  | absent
  | unreadable
  | invalid
  | stored (documents : List DocRecord)
deriving DecidableEq, Repr

/-- `readDb()`: returns `[]` when the file does not exist, `[]` via the
`catch` when reading or parsing throws, and the parsed array otherwise.
Total, so it never throws. -/
def readDb : FileState → List DocRecord
  | .absent => []
  | .unreadable => []
  | .invalid => []
  | .stored d => d

/-- `writeDb(data)`: `writeFileSync` replaces the file contents with the
serialised array; a write error is caught and logged, leaving the
previous state (`ok = false`). -/
def writeDb (data : List DocRecord) (ok : Bool) (fs : FileState) : FileState :=
  if ok then .stored data else fs

/-- `GET /api/knowledge`: responds 200 with `{ documents: readDb() }`. -/
def apiKnowledgeHandler (fs : FileState) : Nat × List DocRecord :=
  (200, readDb fs)

/-- Claim C10: the flat-file metadata store round-trips — after a
successful `writeDb(d)`, `readDb()` returns `d` whatever the previous
state was; `readDb()` is total and returns `[]` when the file does not
exist or cannot be read or parsed; and `GET /api/knowledge` responds 200
with `{ documents }` equal to the currently stored array. -/
theorem C10_file_db_roundtrip :
    (∀ (d : List DocRecord) (fs : FileState), readDb (writeDb d true fs) = d) ∧
    readDb .absent = [] ∧
    readDb .unreadable = [] ∧
    readDb .invalid = [] ∧
    (∀ fs : FileState, apiKnowledgeHandler fs = (200, readDb fs)) ∧
    (∀ d : List DocRecord, apiKnowledgeHandler (.stored d) = (200, d)) :=
  ⟨fun d fs => rfl, rfl, rfl, rfl, fun fs => rfl, fun d => rfl⟩

end TestCaseBackend
